import Mathlib

/-!
Verification of the bounded-parameter domain registry and the generated
`BoundedValue` abstraction of coniferprod/ksynth-rs.

Under `src/` the repository holds `make_ranged.py`: the registry list
`all_types` (one `'Name,min,max,default'` string per domain) and a generator
loop that, for each entry, splits on commas, strips whitespace, and prints a
doc comment, a `pub struct Name(i32);` declaration, and a
`crate::ranged_impl!(Name, min, max, default);` invocation.

The `ranged_impl!` macro itself (validated construction, clamping, default,
raw access, replacement) lives elsewhere in the crate; its behaviour is
modelled here from the specification's §4.1 contract, as flagged on each
such definition.
-/

namespace KSynth

/-- The registry list, verbatim from `src/make_ranged.py` lines 1-33. -/
def all_types : List String := [
  "Volume,0,127,0",
  "BenderPitch,0,24,0",
  "BenderCutoff, 0, 31, 0",
  "EnvelopeTime,0,127,0",
  "EnvelopeLevel,-63,63,0",
  "EnvelopeRate,0,127,0",
  "HarmonicEnvelopeLevel, 0, 63, 0",
  "Bias, -63, 63, 0",
  "ControlTime,-63,63,0",
  "EnvelopeDepth,-63,63,0",
  "LFOSpeed,0,127,0",
  "LFODepth,0,63,0",
  "KeyScaling,-63,63,0",
  "EffectParameter,0,127,0",
  "Cutoff,0,127,0",
  "Resonance,0,31,0",
  "Level,0,31,0",
  "PitchEnvelopeLevel,-63,63,0",
  "PitchEnvelopeTime,0,127,0",
  "VelocityDepth,0,127,0",
  "VelocityControlLevel,0,127,0",
  "PortamentoLevel,0,127,0",
  "KeyOnDelay,0,127,0",
  "VelocitySensitivity,-63,63,0",
  "ControlDepth,-63,63,0",
  "Depth,0,100,0",
  "Pan,-63,63,0",
  "KeyScalingToGain,-63,63,0",
  "Coarse,-24,24,0",
  "Fine,-63,63,0",
  "MacroParameterDepth,-31,31,0"
]

/-- Python `t.split(',')` on the characters of `t`: cut at every comma,
keeping empty fields.  The result is always non-empty. -/
def pySplitComma : List Char → List (List Char)
  | [] => [[]]
  | ',' :: rest => [] :: pySplitComma rest
  | c :: rest =>
    match pySplitComma rest with
    | [] => [[c]]
    | g :: gs => (c :: g) :: gs

/-- Python `s.strip()` from the left: drop leading whitespace. -/
def pyStripLeft : List Char → List Char
  | [] => []
  | c :: rest => if c.isWhitespace then pyStripLeft rest else c :: rest

/-- Python `s.strip()`: drop leading and trailing whitespace. -/
def pyStrip (s : List Char) : List Char :=
  ((pyStripLeft s).reverse |> pyStripLeft).reverse

/-- One registry line after the generator's parsing step
(`parts = t.split(',')`; `parts[i].strip()`), fields still textual as in the
Python source. -/
structure RegEntry where
  name : String
  min_value : String
  max_value : String
  default_value : String
deriving DecidableEq, Repr

/-- The parsing in the generator loop, `src/make_ranged.py` lines 36-40:
split the line on commas and strip whitespace from the first four fields.
Every line of `all_types` has exactly four fields; a line with fewer would
make Python raise `IndexError`, modelled as `none`. -/
def parseEntry (t : String) : Option RegEntry :=
  match pySplitComma t.data with
  | n :: mn :: mx :: df :: _ =>
    some ⟨⟨pyStrip n⟩, ⟨pyStrip mn⟩, ⟨pyStrip mx⟩, ⟨pyStrip df⟩⟩
  | _ => none

/-- Value of a decimal digit character, `none` on any other character. -/
def digitVal (c : Char) : Option Nat :=
  if decide (0x30 ≤ c.toNat) && decide (c.toNat ≤ 0x39) then some (c.toNat - 0x30) else none

/-- Read an unsigned decimal digit string, most significant digit first. -/
def parseNatAux : List Char → Nat → Option Nat
  | [], acc => some acc
  | c :: rest, acc =>
    match digitVal c with
    | some d => parseNatAux rest (10 * acc + d)
    | none => none

/-- Read a (Rust `i32`-style) decimal integer literal, optionally negated. -/
def parseIntLit : List Char → Option Int
  | [] => none
  | '-' :: rest =>
    match rest with
    | [] => none
    | _ => (parseNatAux rest 0).map fun n => -(n : Int)
  | l => (parseNatAux l 0).map fun n => (n : Int)

/-- A domain as instantiated by the emitted
`crate::ranged_impl!(Name, min, max, default);` line: the stripped textual
bounds of the registry entry read as (Rust `i32`) integer literals. -/
structure Domain where
  name : String
  min : Int
  max : Int
  dflt : Int
deriving DecidableEq, Repr

/-- Read an emitted registry entry as a domain: the three numeric fields are
printed into the `ranged_impl!` invocation and parsed there as integer
literals. -/
def toDomain (e : RegEntry) : Option Domain :=
  match parseIntLit e.min_value.data, parseIntLit e.max_value.data,
      parseIntLit e.default_value.data with
  | some mn, some mx, some df => some ⟨e.name, mn, mx, df⟩
  | _, _, _ => none

/-- The set of domains the generator instantiates: each line of `all_types`,
parsed and read as a `ranged_impl!` invocation. -/
def registry : List Domain :=
  all_types.filterMap fun t => (parseEntry t).bind toDomain

/-- Registry lookup by domain name. -/
def findDomain (n : String) : Option Domain :=
  registry.find? fun d => d.name == n

/-- Modelled from the spec: the error payload of a failed validated
construction, `RangeError{ domain, raw, min, max }` (§4.1, §7).  The
`ranged_impl!` macro that defines it is not under `src/`. -/
structure RangeError where
  domainName : String
  raw : Int
  min : Int
  max : Int
deriving DecidableEq, Repr

/-- Modelled from the spec: a bounded value wraps a single raw integer and
carries its domain's identity (§3); the generated Rust code gives each
domain its own nominal wrapper struct, represented here by the domain tag. -/
structure BoundedValue where
  domain : Domain
  raw : Int
deriving DecidableEq, Repr

/-- Modelled from the spec: `rawValue(self)` returns the wrapped integer;
total (§4.1).  The `ranged_impl!` macro defining it is not under `src/`. -/
def rawValue (v : BoundedValue) : Int :=
  v.raw

/-- Modelled from the spec: `fromRaw(domain, raw)` succeeds iff
`domain.min <= raw <= domain.max`, otherwise fails with
`RangeError{ domain, raw, min, max }`; pure validation, no clamping (§4.1).
The `ranged_impl!` macro defining it is not under `src/`. -/
def fromRaw (d : Domain) (r : Int) : Except RangeError BoundedValue :=
  if d.min ≤ r ∧ r ≤ d.max then Except.ok ⟨d, r⟩
  else Except.error ⟨d.name, r, d.min, d.max⟩

/-- Modelled from the spec: `fromRawClamped(domain, raw)` never fails;
returns `raw` unchanged if in range, else `min` if `raw < min`, `max` if
`raw > max` (§4.1).  The `ranged_impl!` macro defining it is not under
`src/`. -/
def fromRawClamped (d : Domain) (r : Int) : BoundedValue :=
  if r < d.min then ⟨d, d.min⟩
  else if r > d.max then ⟨d, d.max⟩
  else ⟨d, r⟩

/-- Modelled from the spec: `default(domain)` returns the domain's
configured default value (§4.1).  The `ranged_impl!` macro defining it is
not under `src/`. -/
def defaultValue (d : Domain) : BoundedValue :=
  ⟨d, d.dflt⟩

/-- Modelled from the spec: `withRaw(self, raw)` returns a new value with
the same domain and the new raw integer, subject to the same validation as
`fromRaw` (§4.1).  The `ranged_impl!` macro defining it is not under
`src/`. -/
def withRaw (v : BoundedValue) (r : Int) : Except RangeError BoundedValue :=
  fromRaw v.domain r

/-- Python's auto-numbered `str.format` substitution on character lists,
restricted to the form the generator uses: each bare placeholder consumes
the next positional argument, surplus arguments are ignored, and a
placeholder with no argument left makes CPython raise `IndexError`,
modelled as `none`.  (The braces of a placeholder are the characters
0x7b, 0x7d.) -/
def pyFormatAux : List Char → List String → Option (List Char)
  | [], _ => some []
  | '\x7b' :: '\x7d' :: rest, arg :: args =>
    (pyFormatAux rest args).map fun l => arg.data ++ l
  | '\x7b' :: '\x7d' :: _, [] => none
  | c :: rest, args => (pyFormatAux rest args).map fun l => c :: l

/-- Python `template.format(*args)` for the generator's templates. -/
def pyFormat (template : String) (args : List String) : Option String :=
  (pyFormatAux template.data args).map fun l => ⟨l⟩

/-- The doc-comment line printed for a parsed registry entry,
`src/make_ranged.py` line 41:
`'/// \x7b\x7d (\x7b\x7d...\x7b\x7d)'.format(name, min_value, max_value, default_value)` —
a three-placeholder template given four arguments. -/
def docLine (e : RegEntry) : Option String :=
  pyFormat "/// \x7b\x7d (\x7b\x7d...\x7b\x7d)"
    [e.name, e.min_value, e.max_value, e.default_value]

/-- The doc-comment form the spec attributes to an entry: name and the two
bounds only, the default value taking no part. -/
def docExpected (e : RegEntry) : String :=
  "/// " ++ e.name ++ " (" ++ e.min_value ++ "..." ++ e.max_value ++ ")"

deriving instance DecidableEq for Except

/-- Every registered domain has ordered bounds. -/
theorem registry_min_le_max : ∀ d ∈ registry, d.min ≤ d.max := by decide

/-- Unfolding `rawValue` on a literal bounded value. -/
@[simp] theorem rawValue_mk (d : Domain) (r : Int) : rawValue ⟨d, r⟩ = r := rfl

/-- Every line of `all_types` parses, and its emitted doc line is the
three-field form. -/
theorem docline_all : ∀ t ∈ all_types, (parseEntry t).isSome = true ∧
    (parseEntry t).map docLine = (parseEntry t).map (fun e => some (docExpected e)) := by
  decide

/-- Claim C1: for every domain in the registry and every integer `r` with
`min ≤ r ≤ max`, `fromRaw` succeeds and `rawValue` of the result is
exactly `r`. -/
theorem fromRaw_in_range_roundtrip (d : Domain) (_hd : d ∈ registry) (r : Int)
    (h1 : d.min ≤ r) (h2 : r ≤ d.max) :
    fromRaw d r = Except.ok ⟨d, r⟩ ∧
    ∃ v, fromRaw d r = Except.ok v ∧ rawValue v = r := by
  have hok : fromRaw d r = Except.ok ⟨d, r⟩ := by
    unfold fromRaw
    rw [if_pos ⟨h1, h2⟩]
  exact ⟨hok, ⟨d, r⟩, hok, rfl⟩

/-- Claim C1 witness: the Volume domain at raw 5. -/
theorem fromRaw_in_range_roundtrip_witness :
    (⟨"Volume", 0, 127, 0⟩ : Domain) ∈ registry ∧
    (fromRaw ⟨"Volume", 0, 127, 0⟩ 5 = Except.ok ⟨⟨"Volume", 0, 127, 0⟩, 5⟩ ∧
     ∃ v, fromRaw ⟨"Volume", 0, 127, 0⟩ 5 = Except.ok v ∧ rawValue v = 5) :=
  ⟨by decide, fromRaw_in_range_roundtrip _ (by decide) 5 (by decide) (by decide)⟩

/-- Claim C2: for every domain in the registry and every out-of-range integer,
`fromRaw` fails with a `RangeError` carrying the domain, the offending raw
value and the bounds, and never yields a (clamped or other) value. -/
theorem fromRaw_out_of_range_error (d : Domain) (_hd : d ∈ registry) (r : Int)
    (h : r < d.min ∨ d.max < r) :
    fromRaw d r = Except.error ⟨d.name, r, d.min, d.max⟩ ∧
    ∀ v, fromRaw d r ≠ Except.ok v := by
  have hno : ¬ (d.min ≤ r ∧ r ≤ d.max) := by omega
  unfold fromRaw
  rw [if_neg hno]
  exact ⟨rfl, fun v hv => Except.noConfusion hv⟩

/-- Claim C2 witness: Volume at raw 128. -/
theorem fromRaw_out_of_range_error_witness :
    (⟨"Volume", 0, 127, 0⟩ : Domain) ∈ registry ∧
    (fromRaw ⟨"Volume", 0, 127, 0⟩ 128 = Except.error ⟨"Volume", 128, 0, 127⟩ ∧
     ∀ v, fromRaw ⟨"Volume", 0, 127, 0⟩ 128 ≠ Except.ok v) :=
  ⟨by decide, fromRaw_out_of_range_error _ (by decide) 128 (by decide)⟩

/-- Claim C3: for every domain in the registry, `fromRawClamped` always lands in
`[min, max]`: it is the identity in range, `min` below and `max` above;
concretely, EnvelopeLevel clamps -100 to -63 and Coarse clamps 50 to 24. -/
theorem fromRawClamped_spec (d : Domain) (hd : d ∈ registry) (r : Int) :
    d.min ≤ rawValue (fromRawClamped d r)
    ∧ rawValue (fromRawClamped d r) ≤ d.max
    ∧ (d.min ≤ r → r ≤ d.max → rawValue (fromRawClamped d r) = r)
    ∧ (r < d.min → rawValue (fromRawClamped d r) = d.min)
    ∧ (d.max < r → rawValue (fromRawClamped d r) = d.max)
    ∧ (findDomain "EnvelopeLevel").map (fun e => rawValue (fromRawClamped e (-100)))
        = some (-63)
    ∧ (findDomain "Coarse").map (fun e => rawValue (fromRawClamped e 50)) = some 24 := by
  have hmm := registry_min_le_max d hd
  refine ⟨?_, ?_, fun ha hb => ?_, fun hl => ?_, fun hh => ?_, by decide, by decide⟩ <;>
    · unfold fromRawClamped
      split <;> (try split) <;> simp only [rawValue_mk] <;> omega

/-- Claim C3 witness: EnvelopeLevel at raw -100. -/
theorem fromRawClamped_spec_witness :
    (⟨"EnvelopeLevel", -63, 63, 0⟩ : Domain) ∈ registry ∧
    rawValue (fromRawClamped ⟨"EnvelopeLevel", -63, 63, 0⟩ (-100)) = -63 :=
  ⟨by decide, (fromRawClamped_spec _ (by decide) (-100)).2.2.2.1 (by decide)⟩

/-- Claim C4: every registry entry has `min ≤ max` and `min ≤ default ≤ max`
(MacroParameterDepth parses to bounds -31…31 with default 0), so every
domain's default value lies within its bounds. -/
theorem registry_entries_valid :
    (∀ d ∈ registry, d.min ≤ d.max ∧ d.min ≤ d.dflt ∧ d.dflt ≤ d.max ∧
      d.min ≤ rawValue (defaultValue d) ∧ rawValue (defaultValue d) ≤ d.max) ∧
    findDomain "MacroParameterDepth" = some ⟨"MacroParameterDepth", -31, 31, 0⟩ := by
  decide

/-- Claim C4 witness: the MacroParameterDepth entry. -/
theorem registry_entries_valid_witness :
    (⟨"MacroParameterDepth", -31, 31, 0⟩ : Domain) ∈ registry ∧
    (⟨"MacroParameterDepth", -31, 31, 0⟩ : Domain).min
      ≤ rawValue (defaultValue ⟨"MacroParameterDepth", -31, 31, 0⟩) ∧
    rawValue (defaultValue ⟨"MacroParameterDepth", -31, 31, 0⟩)
      ≤ (⟨"MacroParameterDepth", -31, 31, 0⟩ : Domain).max :=
  ⟨by decide, (registry_entries_valid.1 _ (by decide)).2.2.2.1,
    (registry_entries_valid.1 _ (by decide)).2.2.2.2⟩

/-- Claim C5: for any validly constructed value of a registered domain, replacing
its raw integer with its own raw integer succeeds and is the identity. -/
theorem withRaw_self_identity (d : Domain) (_hd : d ∈ registry) (r : Int)
    (v : BoundedValue) (hv : fromRaw d r = Except.ok v) :
    withRaw v (rawValue v) = Except.ok v := by
  unfold fromRaw at hv
  split at hv
  case isTrue h =>
    injection hv with h2
    subst h2
    simp only [withRaw, rawValue, fromRaw]
    rw [if_pos h]
  case isFalse h =>
    exact Except.noConfusion hv

/-- Claim C5 witness: Volume at raw 10. -/
theorem withRaw_self_identity_witness :
    (⟨"Volume", 0, 127, 0⟩ : Domain) ∈ registry ∧
    fromRaw ⟨"Volume", 0, 127, 0⟩ 10 = Except.ok ⟨⟨"Volume", 0, 127, 0⟩, 10⟩ ∧
    withRaw ⟨⟨"Volume", 0, 127, 0⟩, 10⟩ (rawValue ⟨⟨"Volume", 0, 127, 0⟩, 10⟩)
      = Except.ok ⟨⟨"Volume", 0, 127, 0⟩, 10⟩ :=
  ⟨by decide, by decide,
    withRaw_self_identity ⟨"Volume", 0, 127, 0⟩ (by decide) 10
      ⟨⟨"Volume", 0, 127, 0⟩, 10⟩ (by decide)⟩

/-- Claim C6: the Volume domain is registered with bounds 0…127 and default 0;
`fromRaw` at 127 succeeds with raw value 127, and at 128 fails with a
`RangeError` carrying min 0, max 127 and raw 128. -/
theorem volume_concrete :
    findDomain "Volume" = some ⟨"Volume", 0, 127, 0⟩ ∧
    fromRaw ⟨"Volume", 0, 127, 0⟩ 127 = Except.ok ⟨⟨"Volume", 0, 127, 0⟩, 127⟩ ∧
    rawValue ⟨⟨"Volume", 0, 127, 0⟩, 127⟩ = 127 ∧
    fromRaw ⟨"Volume", 0, 127, 0⟩ 128 = Except.error ⟨"Volume", 128, 0, 127⟩ := by
  decide

/-- Claim C7: two bounded values of one registered domain are equal exactly when
their raw integers are equal; in particular `fromRaw(Volume, 10)` equals
`fromRaw(Volume, 10)`. -/
theorem same_domain_eq_iff_raw (d : Domain) (_hd : d ∈ registry)
    (v w : BoundedValue) (hv : v.domain = d) (hw : w.domain = d) :
    (v = w ↔ rawValue v = rawValue w) ∧
    fromRaw ⟨"Volume", 0, 127, 0⟩ 10 = fromRaw ⟨"Volume", 0, 127, 0⟩ 10 := by
  refine ⟨⟨fun h => by rw [h], fun h => ?_⟩, rfl⟩
  cases v
  cases w
  simp only [rawValue] at h
  simp_all

/-- Claim C7 witness: two Volume values with raw 10. -/
theorem same_domain_eq_iff_raw_witness :
    (⟨"Volume", 0, 127, 0⟩ : Domain) ∈ registry ∧
    ((⟨⟨"Volume", 0, 127, 0⟩, 10⟩ : BoundedValue) = ⟨⟨"Volume", 0, 127, 0⟩, 10⟩ ↔
      rawValue (⟨⟨"Volume", 0, 127, 0⟩, 10⟩ : BoundedValue)
        = rawValue (⟨⟨"Volume", 0, 127, 0⟩, 10⟩ : BoundedValue)) :=
  ⟨by decide,
    (same_domain_eq_iff_raw ⟨"Volume", 0, 127, 0⟩ (by decide)
      ⟨⟨"Volume", 0, 127, 0⟩, 10⟩ ⟨⟨"Volume", 0, 127, 0⟩, 10⟩ rfl rfl).1⟩

/-- Claim C8: each registry entry instantiates its own nominal wrapper type — the
31 generated type names are pairwise distinct — and bounded values whose
domains differ are never equal, even when they wrap the same integer. -/
theorem cross_domain_distinct :
    (registry.map Domain.name).Nodup ∧
    ∀ v w : BoundedValue, v.domain.name ≠ w.domain.name → v ≠ w := by
  refine ⟨by decide, fun v w hne heq => hne (by rw [heq])⟩

/-- Claim C8 witness: a Volume value and a Pan value both wrapping 10 are not
equal. -/
theorem cross_domain_distinct_witness :
    (⟨⟨"Volume", 0, 127, 0⟩, 10⟩ : BoundedValue) ≠ ⟨⟨"Pan", -63, 63, 0⟩, 10⟩ :=
  cross_domain_distinct.2 _ _ (by decide)

/-- Claim C9: the registry entries for Bias, ControlTime, EnvelopeDepth,
VelocitySensitivity and ControlDepth are each symmetric around zero:
`min = -max`, all five being -63…63. -/
theorem symmetric_domains :
    (∃ d, findDomain "Bias" = some d ∧ d.min = -d.max ∧ d.min = -63 ∧ d.max = 63) ∧
    (∃ d, findDomain "ControlTime" = some d ∧ d.min = -d.max ∧ d.min = -63 ∧ d.max = 63) ∧
    (∃ d, findDomain "EnvelopeDepth" = some d ∧ d.min = -d.max ∧ d.min = -63 ∧ d.max = 63) ∧
    (∃ d, findDomain "VelocitySensitivity" = some d ∧ d.min = -d.max ∧ d.min = -63 ∧ d.max = 63) ∧
    (∃ d, findDomain "ControlDepth" = some d ∧ d.min = -d.max ∧ d.min = -63 ∧ d.max = 63) :=
  ⟨⟨⟨"Bias", -63, 63, 0⟩, by decide⟩,
   ⟨⟨"ControlTime", -63, 63, 0⟩, by decide⟩,
   ⟨⟨"EnvelopeDepth", -63, 63, 0⟩, by decide⟩,
   ⟨⟨"VelocitySensitivity", -63, 63, 0⟩, by decide⟩,
   ⟨⟨"ControlDepth", -63, 63, 0⟩, by decide⟩⟩

/-- Claim C10: every registry line parses, and the generator's emitted
doc-comment line is exactly `/// Name (min...max)` built from the stripped
name and bounds — the fourth `format` argument, the default value, is
ignored by the three-placeholder template. -/
theorem docline_form (t : String) (ht : t ∈ all_types) :
    ∃ e, parseEntry t = some e ∧ docLine e = some (docExpected e) := by
  obtain ⟨h1, h2⟩ := docline_all t ht
  obtain ⟨e, he⟩ := Option.isSome_iff_exists.mp h1
  refine ⟨e, he, ?_⟩
  rw [he] at h2
  simpa using h2

/-- Claim C10 witness: the BenderCutoff line, whose fields carry the extra
whitespace the generator strips. -/
theorem docline_form_witness :
    "BenderCutoff, 0, 31, 0" ∈ all_types ∧
    ∃ e, parseEntry "BenderCutoff, 0, 31, 0" = some e ∧
      docLine e = some (docExpected e) :=
  ⟨by decide, docline_form _ (by decide)⟩

end KSynth
